import Mathlib

/-!
Shallow embedding of the avocado LXC spawner plugin
(avocado/plugins/spawners/lxc.py) and of the spawner common code
(avocado/core/spawners/common.py), together with theorems checking the
specification's claims about them.

Conventions of the embedding:
- Machine state that the Python code observes through the lxc bindings
  (whether the container is defined, running, has network, the exit code of
  a probe command) is a `ContainerState` record; the code's control flow over
  those observations is translated literally.
- Side effects performed by `spawn_task` (rootfs creation, runner
  deployment, container start, the final handle assignment) are recorded as
  an explicit event list, so claims about steps being skipped or performed
  exactly once become statements about that list.
- The filesystem seen by `stream_output` is static for the duration of one
  call: a directory either exists with a fixed entry list or does not. In a
  static filesystem a FileNotFoundError can only come from iterating the
  missing source directory, which the model places at the directory lookup;
  read errors of listed regular files are the other error kinds.
-/

namespace Avocado

/-- Requirements mapping declared by a runnable (the task specification). -/
structure Runnable where
  requirements : List (String × String)
deriving DecidableEq

/-- Task specification: its runnable and its command arguments. -/
structure Task where
  runnable : Runnable
  command_args : List String
deriving DecidableEq

/-- One in-flight execution attempt of a task: the task, the opaque backend
handle (initially unset) and the human-readable status string. -/
structure RuntimeTask where
  task : Task
  spawner_handle : Option String
  status : Option String
deriving DecidableEq

/-- Model of settings.register_option: registering an option under a section
adds the flattened key (section  dot  key) with its default value. -/
def settings_register_option (cfg : List (String × String)) (sect key default_value : String) :
    List (String × String) :=
  cfg ++ [(sect ++ "." ++ key, default_value)]

/-- Model of settings.as_dict followed by dict.get: look a flattened key up. -/
def as_dict_get (cfg : List (String × String)) (key : String) : Option String :=
  (cfg.find? (fun p => p.1 == key)).map (fun p => p.2)

/-- Configuration registered by LXCSpawnerInit (lxc.py lines 46 to 68): the
three options of section spawner.lxc with defaults fedora, 32 and i386. -/
def lxc_spawner_init_config : List (String × String) :=
  settings_register_option (settings_register_option (settings_register_option []
    "spawner.lxc" "dist" "fedora")
    "spawner.lxc" "release" "32")
    "spawner.lxc" "arch" "i386"

/-- Key spawn_task reads for the distribution (lxc.py line 118). -/
def spawn_task_dist_key : String := "spawner.lxc.distro"

/-- Key spawn_task reads for the release (lxc.py line 119). -/
def spawn_task_release_key : String := "spawner.lxc.release"

/-- Key spawn_task reads for the architecture (lxc.py line 120). -/
def spawn_task_arch_key : String := "spawner.lxc.arch"

/-- Observable state of one LXC container as the backend reports it to the
spawner: definedness, running state, whether creation and start would
succeed, whether get_ips reports connectivity, and the exit codes of the
liveness probe and of the attached entry point command. -/
structure ContainerState where
  defined : Bool
  running : Bool
  create_succeeds : Bool
  start_succeeds : Bool
  has_ips : Bool
  pgrep_exitcode : Nat
  attach_exitcode : Nat
deriving DecidableEq

/-- Status message recorded when the lxc python bindings are absent. -/
def lxc_missing_msg : String := "LXC python bindings not available on the system"

/-- Model of LXCSpawner.is_task_alive (lxc.py lines 90 to 108): with no
handle it returns false at once; with a handle and no lxc bindings it
records the status and raises; otherwise it asks the backend whether the
container is defined and running and probes for the runner process. The
result pairs the (possibly updated) runtime task with the outcome, where
Except.error models the raised RuntimeError. -/
def is_task_alive (lxc_available : Bool) (world : String → ContainerState)
    (rt : RuntimeTask) : RuntimeTask × Except String Bool :=
  match rt.spawner_handle with
  | none => (rt, Except.ok false)
  | some h =>
    if lxc_available = false then
      ({ rt with status := some lxc_missing_msg },
       Except.error "LXC dependency is missing")
    else if (world h).defined = false then (rt, Except.ok false)
    else if (world h).running = false then (rt, Except.ok false)
    else (rt, Except.ok ((world h).pgrep_exitcode == 0))

/-- Model of LXCSpawner.check_task_requirements (lxc.py lines 199 to 205):
true when no requirements are declared, and true on the other branch as
well, since the requirement handling is left unimplemented. -/
def check_task_requirements (rt : RuntimeTask) : Bool :=
  if rt.task.runnable.requirements.isEmpty then true
  else true

/-- A concrete runtime task that was never spawned. -/
def rt0 : RuntimeTask :=
  { task := { runnable := { requirements := [] }, command_args := [] },
    spawner_handle := none, status := none }

/-- A concrete runtime task carrying a spawner handle. -/
def rt_spawned : RuntimeTask :=
  { task := { runnable := { requirements := [] }, command_args := [] },
    spawner_handle := some "c34", status := none }

/-- A concrete container that is defined, running and fully functional. -/
def c_live : ContainerState :=
  { defined := true, running := true, create_succeeds := true,
    start_succeeds := true, has_ips := true, pgrep_exitcode := 0,
    attach_exitcode := 0 }

/-- A concrete container that is neither defined nor running. -/
def c_dead : ContainerState :=
  { defined := false, running := false, create_succeeds := true,
    start_succeeds := true, has_ips := true, pgrep_exitcode := 1,
    attach_exitcode := 0 }

/-- C1: the key spawn_task looks up for the distribution,
spawner.lxc.distro, is not the key registered by LXCSpawnerInit, which is
spawner.lxc.dist: the lookup of the spawn_task key in the registered
configuration yields none instead of the registered default fedora, while
the release and architecture keys do match their registrations. -/
theorem lxc_settings_key_mismatch :
    as_dict_get lxc_spawner_init_config spawn_task_dist_key = none
  ∧ as_dict_get lxc_spawner_init_config "spawner.lxc.dist" = some "fedora"
  ∧ spawn_task_dist_key ≠ "spawner.lxc.dist"
  ∧ as_dict_get lxc_spawner_init_config spawn_task_release_key = some "32"
  ∧ as_dict_get lxc_spawner_init_config spawn_task_arch_key = some "i386" := by
  refine ⟨by decide, by decide, by decide, by decide, by decide⟩

/-- C2: for a runtime task whose spawner_handle is unset, is_task_alive
returns false, leaves the runtime task (its status included) unchanged, and
its result does not depend on the backend world or on whether the native
lxc dependency is available. -/
theorem is_task_alive_no_handle (avail avail' : Bool)
    (world world' : String → ContainerState) (rt : RuntimeTask)
    (h : rt.spawner_handle = none) :
    is_task_alive avail world rt = (rt, Except.ok false)
  ∧ is_task_alive avail world rt = is_task_alive avail' world' rt := by
  simp [is_task_alive, h]

/-- C2 witness: a never-spawned task probed with the dependency absent. -/
theorem is_task_alive_no_handle_witness :
    is_task_alive false (fun _ => c_dead) rt0 = (rt0, Except.ok false) :=
  (is_task_alive_no_handle false true (fun _ => c_dead) (fun _ => c_live) rt0 rfl).1

/-- C10: check_task_requirements returns true for every runtime task, also
for one declaring a non-empty requirements mapping. -/
theorem check_task_requirements_always_true :
    (∀ rt : RuntimeTask, check_task_requirements rt = true)
  ∧ check_task_requirements
      { task := { runnable := { requirements := [("state", "customized")] },
                  command_args := [] },
        spawner_handle := none, status := none } = true := by
  constructor
  · intro rt
    simp [check_task_requirements]
  · decide

/-- Outcome of deploying the runner into the container rootfs: the copy and
chmod either succeed or raise one of the two caught error kinds. -/
inductive DeployOutcome
  | ok
  | file_not_found
  | permission_error
deriving DecidableEq

/-- Backend world one spawn_task call runs against: availability of the lxc
bindings, the state of the target container and the deployment outcome. -/
structure LxcWorld where
  lxc_available : Bool
  container : ContainerState
  deploy : DeployOutcome
deriving DecidableEq

/-- Side effects spawn_task can perform, in program order. -/
inductive SpawnEvent
  | create_rootfs (dist release arch : Option String)
  | deploy_runner
  | start_container
  | wait_ips
  | run_entry_point (args : List String) (exitcode : Nat)
  | set_handle (id : String)
deriving DecidableEq

/-- Result of one spawn_task call: the updated runtime task, the returned
boolean and the recorded side effects. -/
structure SpawnResult where
  rt : RuntimeTask
  success : Bool
  events : List SpawnEvent
deriving DecidableEq

/-- Fixed placeholder container identifier (lxc.py line 128). -/
def container_id : String := "c34"

/-- Fixed in-container path of the task runner (lxc.py line 112). -/
def entry_point_cmd : String := "/root/avocado-runner"

/-- Model of LXCSpawner.spawn_task (lxc.py lines 110 to 190), with each
backend side effect recorded as an event: build the entry point invocation,
read the configuration, fail fast without the lxc bindings, create the
rootfs only when the container is undefined, deploy the runner (catching
file-not-found and permission errors as a false return), start the
container only when it is not running, wait for connectivity, run the entry
point, and finally set the handle and return true. -/
def spawn_task (cfg : List (String × String)) (w : LxcWorld) (rt : RuntimeTask) :
    SpawnResult :=
  let entry_point_args := entry_point_cmd :: "task-run" :: rt.task.command_args
  let dist := as_dict_get cfg spawn_task_dist_key
  let release := as_dict_get cfg spawn_task_release_key
  let arch := as_dict_get cfg spawn_task_arch_key
  if !w.lxc_available then
    { rt := { rt with status := some lxc_missing_msg }, success := false, events := [] }
  else
    let c := w.container
    let create_events :=
      if !c.defined then [SpawnEvent.create_rootfs dist release arch] else []
    if !c.defined && !c.create_succeeds then
      { rt := rt, success := false, events := create_events }
    else
      match w.deploy with
      | DeployOutcome.file_not_found =>
        { rt := rt, success := false, events := create_events ++ [SpawnEvent.deploy_runner] }
      | DeployOutcome.permission_error =>
        { rt := rt, success := false, events := create_events ++ [SpawnEvent.deploy_runner] }
      | DeployOutcome.ok =>
        let start_events := if !c.running then [SpawnEvent.start_container] else []
        if !c.running && !c.start_succeeds then
          { rt := rt, success := false,
            events := create_events ++ [SpawnEvent.deploy_runner] ++ start_events }
        else if !c.has_ips then
          { rt := rt, success := false,
            events := create_events ++ [SpawnEvent.deploy_runner] ++ start_events
              ++ [SpawnEvent.wait_ips] }
        else
          { rt := { rt with spawner_handle := some container_id }, success := true,
            events := create_events ++ [SpawnEvent.deploy_runner] ++ start_events
              ++ [SpawnEvent.wait_ips,
                  SpawnEvent.run_entry_point entry_point_args c.attach_exitcode,
                  SpawnEvent.set_handle container_id] }

/-- Recognizes the rootfs creation event. -/
def is_create_event : SpawnEvent → Bool
  | SpawnEvent.create_rootfs _ _ _ => true
  | _ => false

/-- Recognizes the container start event. -/
def is_start_event : SpawnEvent → Bool
  | SpawnEvent.start_container => true
  | _ => false

/-- Recognizes the handle assignment event. -/
def is_set_handle_event : SpawnEvent → Bool
  | SpawnEvent.set_handle _ => true
  | _ => false

/-- C4: against an already defined and running container (with the bindings
present, deployment succeeding and connectivity available) spawn_task
succeeds while performing neither the rootfs creation step nor the start
step, and a second spawn_task call on the resulting runtime task succeeds
again, still skipping both steps: an existing container is reused, not a
failure cause. -/
theorem spawn_task_idempotent (cfg : List (String × String)) (w : LxcWorld)
    (rt : RuntimeTask) (havail : w.lxc_available = true)
    (hdef : w.container.defined = true) (hrun : w.container.running = true)
    (hdep : w.deploy = DeployOutcome.ok) (hips : w.container.has_ips = true) :
    (spawn_task cfg w rt).success = true
  ∧ (spawn_task cfg w rt).events.countP is_create_event = 0
  ∧ (spawn_task cfg w rt).events.countP is_start_event = 0
  ∧ (spawn_task cfg w (spawn_task cfg w rt).rt).success = true
  ∧ (spawn_task cfg w (spawn_task cfg w rt).rt).events.countP is_create_event = 0
  ∧ (spawn_task cfg w (spawn_task cfg w rt).rt).events.countP is_start_event = 0 := by
  simp [spawn_task, havail, hdef, hrun, hdep, hips, is_create_event, is_start_event,
    List.countP_cons, List.countP_append, List.countP_nil]

/-- A backend world whose container is defined, running and healthy. -/
def w_live : LxcWorld :=
  { lxc_available := true, container := c_live, deploy := DeployOutcome.ok }

/-- A backend world where the lxc python bindings are absent. -/
def w_noavail : LxcWorld :=
  { lxc_available := false, container := c_live, deploy := DeployOutcome.ok }

/-- C4 witness: both spawn_task calls against the live world succeed and the
first performs no rootfs creation and no container start. -/
theorem spawn_task_idempotent_witness :
    (spawn_task lxc_spawner_init_config w_live rt0).success = true
  ∧ (spawn_task lxc_spawner_init_config w_live rt0).events.countP is_create_event = 0
  ∧ (spawn_task lxc_spawner_init_config w_live
      (spawn_task lxc_spawner_init_config w_live rt0).rt).success = true := by
  have h := spawn_task_idempotent lxc_spawner_init_config w_live rt0 rfl rfl rfl rfl rfl
  exact ⟨h.1, h.2.1, h.2.2.2.1⟩

/-- C7: spawn_task sets the handle exactly once, on the success path and
nowhere else; whenever it returns false the runtime task keeps its unset
spawner_handle, and each modeled failure condition (bindings absent, rootfs
creation failing on an undefined container, deployment file-not-found or
permission error, start failing on a stopped container, no connectivity)
yields a false return, never an escaping exception. -/
theorem spawn_task_failure_paths (cfg : List (String × String)) (w : LxcWorld)
    (rt : RuntimeTask) (h0 : rt.spawner_handle = none) :
    ((spawn_task cfg w rt).success = false →
      (spawn_task cfg w rt).rt.spawner_handle = none)
  ∧ ((spawn_task cfg w rt).success = false →
      (spawn_task cfg w rt).events.countP is_set_handle_event = 0)
  ∧ ((spawn_task cfg w rt).success = true →
      (spawn_task cfg w rt).rt.spawner_handle = some container_id
      ∧ (spawn_task cfg w rt).events.countP is_set_handle_event = 1)
  ∧ (w.lxc_available = false → (spawn_task cfg w rt).success = false)
  ∧ (w.deploy = DeployOutcome.file_not_found → (spawn_task cfg w rt).success = false)
  ∧ (w.deploy = DeployOutcome.permission_error → (spawn_task cfg w rt).success = false)
  ∧ (w.container.defined = false → w.container.create_succeeds = false →
      (spawn_task cfg w rt).success = false)
  ∧ (w.container.running = false → w.container.start_succeeds = false →
      (spawn_task cfg w rt).success = false)
  ∧ (w.container.has_ips = false → (spawn_task cfg w rt).success = false) := by
  obtain ⟨avail, c, dep⟩ := w
  obtain ⟨cd, cr, ccs, css, cips, cpg, cat⟩ := c
  cases avail <;> cases cd <;> cases ccs <;> cases dep <;> cases cr <;>
    cases css <;> cases cips <;>
    simp [spawn_task, h0, is_set_handle_event,
      List.countP_cons, List.countP_append, List.countP_nil]

/-- C7 witness: with the lxc bindings absent, spawn_task returns false and
leaves the handle unset with no handle assignment event. -/
theorem spawn_task_failure_paths_witness :
    (spawn_task lxc_spawner_init_config w_noavail rt0).success = false
  ∧ (spawn_task lxc_spawner_init_config w_noavail rt0).rt.spawner_handle = none
  ∧ (spawn_task lxc_spawner_init_config w_noavail rt0).events.countP
      is_set_handle_event = 0 := by
  have h := spawn_task_failure_paths lxc_spawner_init_config w_noavail rt0 rfl
  have hfail := h.2.2.2.1 rfl
  exact ⟨hfail, h.1 hfail, h.2.1 hfail⟩

/-- Observable steps of the wait_task polling loop: a liveness probe with
its answer, or a cooperative sleep of the given number of milliseconds. -/
inductive WaitEvent
  | probe (alive : Bool)
  | sleep_ms (n : Nat)
deriving DecidableEq

/-- Model of LXCSpawner.wait_task (lxc.py lines 192 to 197) as the trace of
its polling loop: probe k is the answer of the k-th is_task_alive call. The
fuel bounds how many probes the finite observation may make; none means the
loop has not returned within that many probes (the real loop would still be
running), some trace means it returned with exactly that trace. -/
def wait_task (alive : Nat → Bool) : Nat → Nat → Option (List WaitEvent)
  | 0, _ => none
  | fuel + 1, k =>
    if alive k then
      match wait_task alive fuel (k + 1) with
      | none => none
      | some evs => some (WaitEvent.probe true :: WaitEvent.sleep_ms 100 :: evs)
    else
      some [WaitEvent.probe false]

/-- Trace of a loop that saw n live probes, slept 100 ms after each of them,
and returned on the first probe reporting not alive. -/
def expected_trace : Nat → List WaitEvent
  | 0 => [WaitEvent.probe false]
  | n + 1 => WaitEvent.probe true :: WaitEvent.sleep_ms 100 :: expected_trace n

lemma expected_trace_replicate (n : Nat) :
    expected_trace n =
      (List.replicate n [WaitEvent.probe true, WaitEvent.sleep_ms 100]).flatten
        ++ [WaitEvent.probe false] := by
  induction n with
  | zero => rfl
  | succ n ih => simp [expected_trace, List.replicate_succ, ih]

lemma wait_task_found (alive : Nat → Bool) :
    ∀ n k fuel, (∀ m, m < n → alive (k + m) = true) → alive (k + n) = false →
      n < fuel → wait_task alive fuel k = some (expected_trace n) := by
  intro n
  induction n with
  | zero =>
    intro k fuel _ hdead hfuel
    obtain ⟨f, rfl⟩ : ∃ f, fuel = f + 1 := ⟨fuel - 1, by omega⟩
    have hk : alive k = false := by simpa using hdead
    simp [wait_task, hk, expected_trace]
  | succ n ih =>
    intro k fuel hlive hdead hfuel
    obtain ⟨f, rfl⟩ : ∃ f, fuel = f + 1 := ⟨fuel - 1, by omega⟩
    have hk : alive k = true := by simpa using hlive 0 (Nat.succ_pos n)
    have hrec : wait_task alive f (k + 1) = some (expected_trace n) := by
      apply ih
      · intro m hm
        have h2 := hlive (m + 1) (by omega)
        rwa [show k + (m + 1) = k + 1 + m by omega] at h2
      · rwa [show k + (n + 1) = k + 1 + n by omega] at hdead
      · omega
    simp [wait_task, hk, hrec, expected_trace]

lemma wait_task_alive_forever (alive : Nat → Bool) :
    ∀ fuel k, (∀ m, m < fuel → alive (k + m) = true) →
      wait_task alive fuel k = none := by
  intro fuel
  induction fuel with
  | zero => intro k _; rfl
  | succ f ih =>
    intro k hlive
    have hk : alive k = true := by simpa using hlive 0 (Nat.succ_pos f)
    have hrec : wait_task alive f (k + 1) = none := by
      apply ih
      intro m hm
      have h2 := hlive (m + 1) (by omega)
      rwa [show k + (m + 1) = k + 1 + m by omega] at h2
    simp [wait_task, hk, hrec]

/-- C3: wait_task returns exactly when a probe reports not alive. If the
n-th probe is the first one reporting false (within the fuel bound) the
loop returns with a trace of n live probes, each followed by one 100 ms
cooperative sleep, ending in the false probe; while every probe within the
fuel bound reports alive the loop has not returned; and the returned trace
is n repetitions of probe-then-sleep-100 followed by the false probe. -/
theorem wait_task_probe_semantics (alive : Nat → Bool) (fuel : Nat) :
    (∀ n, n < fuel → (∀ m, m < n → alive m = true) → alive n = false →
      wait_task alive fuel 0 = some (expected_trace n))
  ∧ ((∀ m, m < fuel → alive m = true) → wait_task alive fuel 0 = none)
  ∧ (∀ n, expected_trace n =
      (List.replicate n [WaitEvent.probe true, WaitEvent.sleep_ms 100]).flatten
        ++ [WaitEvent.probe false]) := by
  refine ⟨fun n hn hlive hdead => ?_, fun hlive => ?_, expected_trace_replicate⟩
  · exact wait_task_found alive n 0 fuel (fun m hm => by simpa using hlive m hm)
      (by simpa using hdead) hn
  · exact wait_task_alive_forever alive fuel 0 (fun m hm => by simpa using hlive m hm)

/-- Scoped temporary file model (LXCStreamsFile, lxc.py lines 19 to 39):
temporary file paths are numbers, the filesystem is the list of existing
temporary paths, and mkstemp picks a path larger than every existing one. -/
def fresh_path (fs : List Nat) : Nat := fs.foldr (fun a b => max a b) 0 + 1

lemma le_foldr_max (fs : List Nat) : ∀ x ∈ fs, x ≤ fs.foldr (fun a b => max a b) 0 := by
  induction fs with
  | nil => simp
  | cons a t ih =>
    intro x hx
    rcases List.mem_cons.mp hx with h | h
    · subst h; exact le_max_left _ _
    · exact le_trans (ih x h) (le_max_right _ _)

lemma fresh_path_not_mem (fs : List Nat) : fresh_path fs ∉ fs := by
  intro hmem
  have h := le_foldr_max fs _ hmem
  simp only [fresh_path] at h
  omega

/-- Model of a with-block over one LXCStreamsFile: enter creates a fresh
temporary file, the body runs with it (and may raise, modeled by
Except.error), and exit removes the file unconditionally. -/
def with_streams_file {α : Type} (fs : List Nat) (body : Nat → Except String α) :
    List Nat × Except String α :=
  let p := fresh_path fs
  let fs_entered := p :: fs
  let result := body p
  (fs_entered.erase p, result)

/-- Model of LXCSpawner.run_container_cmd (lxc.py lines 76 to 80): two
nested LXCStreamsFile scopes for stdout and stderr around the attach_wait
call, whose outcome (return or raise) is propagated after both exits. -/
def run_container_cmd {α : Type} (fs : List Nat)
    (attach_wait : Nat → Nat → Except String α) : List Nat × Except String α :=
  let p_out := fresh_path fs
  let fs1 := p_out :: fs
  let p_err := fresh_path fs1
  let fs2 := p_err :: fs1
  let result := attach_wait p_out p_err
  ((fs2.erase p_err).erase p_out, result)

/-- C9: the scoped temporary file is gone on every exit path. For any body,
including one that raises, the filesystem after the with-block equals the
filesystem before it, the file created on entry is absent from it, and the
body's outcome is propagated unchanged; the same holds for the two nested
scopes of run_container_cmd. -/
theorem streams_file_cleanup {α : Type} (fs : List Nat)
    (body : Nat → Except String α) (attach_wait : Nat → Nat → Except String α) :
    (with_streams_file fs body).1 = fs
  ∧ fresh_path fs ∉ (with_streams_file fs body).1
  ∧ (with_streams_file fs body).2 = body (fresh_path fs)
  ∧ (run_container_cmd fs attach_wait).1 = fs
  ∧ fresh_path fs ∉ (run_container_cmd fs attach_wait).1
  ∧ fresh_path (fresh_path fs :: fs) ∉ (run_container_cmd fs attach_wait).1
  ∧ (run_container_cmd fs attach_wait).2 =
      attach_wait (fresh_path fs) (fresh_path (fresh_path fs :: fs)) := by
  have h1 : (with_streams_file fs body).1 = fs := by
    simp [with_streams_file]
  have h2 : (run_container_cmd fs attach_wait).1 = fs := by
    simp [run_container_cmd]
  refine ⟨h1, ?_, rfl, h2, ?_, ?_, rfl⟩
  · rw [h1]; exact fresh_path_not_mem fs
  · rw [h2]; exact fresh_path_not_mem fs
  · rw [h2]
    intro hmem
    exact fresh_path_not_mem (fresh_path fs :: fs) (List.mem_cons_of_mem _ hmem)

/-- Filesystem errors a read of a listed regular file can raise in the
static filesystem model: anything except a missing file. -/
inductive FsError
  | permission_denied
  | os_error (code : Nat)
deriving DecidableEq

/-- One entry of the resolved source directory: its name, whether it is a
regular file, its bytes (st_size is their length in a static filesystem)
and the error its read raises, if any. -/
structure DirEntry where
  name : String
  is_file : Bool
  content : List Nat
  read_error : Option FsError
deriving DecidableEq

/-- How a stream_output call can fail: the domain-specific SpawnerException
raised for a missing source directory, or an untranslated filesystem
error. -/
inductive StreamFailure
  | spawner_exception (msg : String)
  | os_failure (e : FsError)
deriving DecidableEq

/-- Message carried by the SpawnerException of stream_output. -/
def task_not_found_msg : String := "Task not found"

/-- Model of BaseSpawner.bytes_from_file (common.py lines 32 to 43): read
the whole content of a local file, or raise its filesystem error. -/
def bytes_from_file (e : DirEntry) : Except FsError (List Nat) :=
  match e.read_error with
  | some err => Except.error err
  | none => Except.ok e.content

/-- Loop body of stream_output over the directory entries (common.py lines
61 to 64): keep regular files of non-zero size, read each one, and stop at
the first read error; the result pairs the yielded entries with the error
that ended the iteration, if any. -/
def stream_entries : List DirEntry → List (String × List Nat) × Option StreamFailure
  | [] => ([], none)
  | e :: rest =>
    if e.is_file && e.content.length != 0 then
      match bytes_from_file e with
      | Except.error err => ([], some (StreamFailure.os_failure err))
      | Except.ok bs =>
        ((e.name, bs) :: (stream_entries rest).1, (stream_entries rest).2)
    else
      stream_entries rest

/-- Model of BaseSpawner.stream_output (common.py lines 45 to 66) from the
resolved source directory on: when the directory named by the task's
pointer file does not exist, iterating it raises FileNotFoundError, which
the code translates into a SpawnerException before anything is yielded;
when it exists, the entries are streamed and any read error propagates. -/
def stream_output (dir : Option (List DirEntry)) :
    List (String × List Nat) × Option StreamFailure :=
  match dir with
  | none => ([], some (StreamFailure.spawner_exception task_not_found_msg))
  | some entries => stream_entries entries

lemma stream_entries_clean (entries : List DirEntry)
    (hok : ∀ e ∈ entries, e.read_error = none) :
    stream_entries entries =
      ((entries.filter (fun e => e.is_file && e.content.length != 0)).map
        (fun e => (e.name, e.content)), none) := by
  induction entries with
  | nil => rfl
  | cons e rest ih =>
    have he : e.read_error = none := hok e (List.mem_cons_self e rest)
    have hrest := ih (fun x hx => hok x (List.mem_cons_of_mem e hx))
    by_cases hc : (e.is_file && e.content.length != 0) = true
    · simp [stream_entries, hc, bytes_from_file, he, hrest, List.filter_cons]
    · simp [stream_entries, hc, hrest, List.filter_cons]

/-- C5: when every read succeeds, stream_output on an existing directory
yields exactly one (name, bytes) pair per regular entry of non-zero size,
in directory order, excluding directories and zero-size files, and raises
nothing. -/
theorem stream_output_regular_nonempty (entries : List DirEntry)
    (hok : ∀ e ∈ entries, e.read_error = none) :
    stream_output (some entries) =
      ((entries.filter (fun e => e.is_file && e.content.length != 0)).map
        (fun e => (e.name, e.content)), none) := by
  simpa [stream_output] using stream_entries_clean entries hok

/-- Regular file a.txt holding the five bytes of hello. -/
def a_txt : DirEntry :=
  { name := "a.txt", is_file := true, content := [104, 101, 108, 108, 111],
    read_error := none }

/-- Regular zero-size file empty.log. -/
def empty_log : DirEntry :=
  { name := "empty.log", is_file := true, content := [], read_error := none }

/-- C5 witness: a directory holding a.txt with bytes of hello and the
zero-size empty.log streams exactly one entry, a.txt with its bytes. -/
theorem stream_output_regular_nonempty_witness :
    stream_output (some [a_txt, empty_log]) =
      ([("a.txt", [104, 101, 108, 108, 111])], none) := by
  have h := stream_output_regular_nonempty [a_txt, empty_log] (by decide)
  exact h.trans (by decide)

lemma stream_entries_no_spawner_exception (entries : List DirEntry) :
    ∀ m : String,
      (stream_entries entries).2 ≠ some (StreamFailure.spawner_exception m) := by
  induction entries with
  | nil => intro m; simp [stream_entries]
  | cons e rest ih =>
    intro m
    by_cases hc : (e.is_file && e.content.length != 0) = true
    · cases herr : e.read_error with
      | none => simpa [stream_entries, hc, bytes_from_file, herr] using ih m
      | some err => simp [stream_entries, hc, bytes_from_file, herr]
    · simpa [stream_entries, hc] using ih m

lemma stream_entries_first_error (pre post : List DirEntry) (e : DirEntry)
    (err : FsError) (hclean : ∀ x ∈ pre, x.read_error = none)
    (hfile : e.is_file = true) (hsize : e.content.length ≠ 0)
    (herr : e.read_error = some err) :
    (stream_entries (pre ++ e :: post)).2 = some (StreamFailure.os_failure err) := by
  induction pre with
  | nil =>
    have hc : (e.is_file && e.content.length != 0) = true := by
      simp [hfile, hsize]
    simp [stream_entries, hc, bytes_from_file, herr]
  | cons x xs ih =>
    have hx : x.read_error = none := hclean x (List.mem_cons_self x xs)
    have hrest := ih (fun y hy => hclean y (List.mem_cons_of_mem x hy))
    by_cases hc : (x.is_file && x.content.length != 0) = true
    · simpa [stream_entries, hc, bytes_from_file, hx] using hrest
    · simpa [stream_entries, hc] using hrest

/-- C6: a missing source directory makes stream_output fail with the
domain-specific SpawnerException and yield no entries at all; an existing
directory never produces a SpawnerException, and a read error of a
regular non-zero-size entry (the first one, after error-free entries)
propagates as exactly that untranslated filesystem error. -/
theorem stream_output_task_not_found :
    stream_output none =
      ([], some (StreamFailure.spawner_exception task_not_found_msg))
  ∧ (∀ (entries : List DirEntry) (m : String),
      (stream_output (some entries)).2 ≠ some (StreamFailure.spawner_exception m))
  ∧ (∀ (pre post : List DirEntry) (e : DirEntry) (err : FsError),
      (∀ x ∈ pre, x.read_error = none) → e.is_file = true →
      e.content.length ≠ 0 → e.read_error = some err →
      (stream_output (some (pre ++ e :: post))).2 =
        some (StreamFailure.os_failure err)) := by
  refine ⟨rfl, ?_, ?_⟩
  · intro entries m
    simpa [stream_output] using stream_entries_no_spawner_exception entries m
  · intro pre post e err hclean hfile hsize herr
    simpa [stream_output] using
      stream_entries_first_error pre post e err hclean hfile hsize herr

/-- C8: for a runtime task carrying a handle, is_task_alive raises exactly
when the lxc bindings are absent, and then only after recording the
human-readable explanation in the task's status; with the bindings present
the task is unchanged and the probe merely answers, returning false for an
undefined container, a stopped container, or a liveness probe process
exiting with non-zero status. -/
theorem is_task_alive_fatal_iff (avail : Bool) (world : String → ContainerState)
    (rt : RuntimeTask) (hdl : String) (hh : rt.spawner_handle = some hdl) :
    ((∃ e, (is_task_alive avail world rt).2 = Except.error e) ↔ avail = false)
  ∧ (avail = false →
      (is_task_alive avail world rt).1 = { rt with status := some lxc_missing_msg })
  ∧ (avail = true → (is_task_alive avail world rt).1 = rt)
  ∧ (avail = true → (world hdl).defined = false →
      (is_task_alive avail world rt).2 = Except.ok false)
  ∧ (avail = true → (world hdl).running = false →
      (is_task_alive avail world rt).2 = Except.ok false)
  ∧ (avail = true → (world hdl).pgrep_exitcode ≠ 0 →
      (is_task_alive avail world rt).2 = Except.ok false) := by
  cases avail with
  | false => simp [is_task_alive, hh]
  | true =>
    refine ⟨?_, by simp, ?_, ?_, ?_, ?_⟩
    · simp only [is_task_alive, hh]
      constructor
      · rintro ⟨e, he⟩
        by_cases hd : (world hdl).defined = false
        · simp [hd] at he
        · by_cases hr : (world hdl).running = false <;> simp [hd, hr] at he
      · intro hfalse
        exact absurd hfalse (by simp)
    · intro _
      simp only [is_task_alive, hh]
      by_cases hd : (world hdl).defined = false
      · simp [hd]
      · by_cases hr : (world hdl).running = false <;> simp [hd, hr]
    · intro _ hd
      simp [is_task_alive, hh, hd]
    · intro _ hr
      simp only [is_task_alive, hh]
      by_cases hd : (world hdl).defined = false <;> simp [hd, hr]
    · intro _ hp
      simp only [is_task_alive, hh]
      by_cases hd : (world hdl).defined = false
      · simp [hd]
      · by_cases hr : (world hdl).running = false
        · simp [hd, hr]
        · simp [hd, hr, hp]

/-- C8 witness: with the bindings present and the container undefined, the
probe of a spawned task answers false without raising. -/
theorem is_task_alive_fatal_iff_witness :
    (is_task_alive true (fun _ => c_dead) rt_spawned).2 = Except.ok false :=
  (is_task_alive_fatal_iff true (fun _ => c_dead) rt_spawned "c34" rfl).2.2.2.1
    rfl rfl

end Avocado
